import Mathlib

/-!
Shallow embedding of `src/src/examples/decimal-number-matcher.js`.

The matcher class `DecimalNumberMatcher` is translated definition by
definition; JavaScript `null`/`undefined` values are rendered as `Option`,
and the mutation of the result accumulator is rendered as explicit state
threading.  The two external collaborators — the decimal-arithmetic
primitive (`decimal.js`) and the `ValidationResult` accumulator
(`./validation-result`, a repository file absent from `src/`) — are
modelled from the spec's description of the consumed interface; those
definitions carry a `Modelled from the spec:` doc comment.
-/

/-- Modelled from the spec: one ViolationRecord, a pair of a code and a
human-readable message. -/
structure ViolationRecord where
  code : String
  message : String
deriving DecidableEq, Repr

/-- Modelled from the spec: the ValidationResult accumulator (file
validation-result.js, absent from src/) holds an ordered sequence of
violation records; the empty sequence means valid. -/
structure ValidationResult where
  violations : List ViolationRecord
deriving DecidableEq, Repr

/-- Modelled from the spec: the append-violation operation of the
accumulator, taking a code and a message and appending one record. -/
def ValidationResult.addInvalidTypeError (r : ValidationResult)
    (code message : String) : ValidationResult :=
  ⟨r.violations ++ [⟨code, message⟩]⟩

/-- Modelled from the spec: a parsed arbitrary-precision decimal in
canonical form: a sign, the mantissa of significant digits, and the
fractional scale.  The magnitude is mantissa / 10 ^ scale, with trailing
fractional zeros removed by normalisation (the mantissa is not divisible
by ten while the scale is positive). -/
structure DecimalValue where
  neg : Bool
  mantissa : Nat
  scale : Nat
deriving DecidableEq, Repr

/-- Digit count of a natural number, with explicit fuel so that the
definition reduces in the kernel; the fuel is adequate once it is at
least the digit count, in particular when it equals the number itself. -/
def numDigitsAux : Nat → Nat → Nat
  | 0, _ => 0
  | fuel + 1, n => if n = 0 then 0 else numDigitsAux fuel (n / 10) + 1

/-- Number of base-10 digits of a natural number; zero has no digits. -/
def numDigits (n : Nat) : Nat := numDigitsAux n n

/-- Modelled from the spec: the total significant digit count of a parsed
decimal (decimal.js precision(true)): the digit count of the canonical
mantissa, a bare zero counting as one digit.  The sign and any leading or
trailing zero padding of the source text never contribute, because the
canonical mantissa has dropped them. -/
def DecimalValue.precision (d : DecimalValue) : Nat :=
  if d.mantissa = 0 then 1 else numDigits d.mantissa

/-- Modelled from the spec: the fractional digit count of a parsed decimal
(decimal.js decimalPlaces()): the number of digits after the decimal point
in canonical form, zero for whole numbers. -/
def DecimalValue.decimalPlaces (d : DecimalValue) : Nat := d.scale

/-- Decimal-digit test on characters. -/
def isDecDigit (c : Char) : Bool := 48 ≤ c.toNat && c.toNat ≤ 57

/-- Numeric value of a run of digit characters, most significant first. -/
def digitsToNat (l : List Char) : Nat :=
  l.foldl (fun a c => 10 * a + (c.toNat - 48)) 0

/-- Longest digit prefix of a character list, paired with the remainder. -/
def takeDigits : List Char → List Char × List Char
  | [] => ([], [])
  | c :: t =>
    if isDecDigit c then
      let p := takeDigits t
      (c :: p.1, p.2)
    else ([], c :: t)

/-- Canonicalisation of a raw mantissa and scale: divide the mantissa by
ten while the scale is positive and the mantissa is divisible by ten. -/
def normScale : Nat → Nat → Nat × Nat
  | m, 0 => (m, 0)
  | m, k + 1 => if m % 10 = 0 then normScale (m / 10) k else (m, k + 1)

/-- Modelled from the spec: parse of unsigned decimal text.  The grammar is
a nonempty digit run, optionally followed by a dot and a digit run, or a
dot followed by a nonempty digit run; anything else is malformed.  Yields
the raw mantissa and the fractional length. -/
def parseUnsigned (cs : List Char) : Option (Nat × Nat) :=
  let ip := takeDigits cs
  match ip.2 with
  | [] => if ip.1.isEmpty then none else some (digitsToNat ip.1, 0)
  | c :: t =>
    if c = '.' then
      let fp := takeDigits t
      if fp.2.isEmpty && !(ip.1.isEmpty && fp.1.isEmpty) then
        some (digitsToNat (ip.1 ++ fp.1), fp.1.length)
      else none
    else none

/-- Modelled from the spec: the external decimal parse operation.  The
separator is always the dot, an optional leading sign is allowed, and
malformed text fails; a successful parse is canonicalised with
normScale. -/
def parseDecimal (s : String) : Option DecimalValue :=
  let signed : Bool × List Char :=
    match s.data with
    | '+' :: t => (false, t)
    | '-' :: t => (true, t)
    | cs => (false, cs)
  (parseUnsigned signed.2).map fun p =>
    let q := normScale p.1 p.2
    ⟨signed.1, q.1, q.2⟩

/-- Source constant DEFAULT_DIGIT_LIMIT (line 6). -/
def DEFAULT_DIGIT_LIMIT : Int := 11

/-- Shape of one entry of the source's DoubleNumberErrors table. -/
structure ErrorSpec where
  CODE : String
  MESSAGE : String

/-- Source DoubleNumberErrors.NOT_VALID (lines 9-12). -/
def DoubleNumberErrors.NOT_VALID : ErrorSpec :=
  ⟨"doubleNumber.e001", "The value is not a valid decimal number."⟩

/-- Source DoubleNumberErrors.EXCEEDED_MAX_NUMBER_OF_DIGITS (lines 13-16). -/
def DoubleNumberErrors.EXCEEDED_MAX_NUMBER_OF_DIGITS : ErrorSpec :=
  ⟨"doubleNumber.e002", "The value exceeded maximum number of digits."⟩

/-- Source DoubleNumberErrors.EXCEEDED_MAX_NUMBER_OF_DECIMAL_PLACES (lines 17-20). -/
def DoubleNumberErrors.EXCEEDED_MAX_NUMBER_OF_DECIMAL_PLACES : ErrorSpec :=
  ⟨"doubleNumber.e003", "The value exceeded maximum number of decimal places."⟩

/-- The matcher object: it holds the construction-time configuration
parameters verbatim (constructor, source lines 37-39). -/
structure DecimalNumberMatcher where
  params : List Int
deriving DecidableEq, Repr

/-- Source convertToDecimal (lines 82-91): try to parse the value; on
failure the number is null and a NOT_VALID violation is recorded. -/
def DecimalNumberMatcher.convertToDecimal (value : String)
    (result : ValidationResult) : Option DecimalValue × ValidationResult :=
  match parseDecimal value with
  | some n => (some n, result)
  | none =>
    (none, result.addInvalidTypeError DoubleNumberErrors.NOT_VALID.CODE
      DoubleNumberErrors.NOT_VALID.MESSAGE)

/-- Source isExceededMaxNumberOfDigits (lines 113-115): optional chaining
on the number, so the comparison against an absent number (or an absent
bound, both being undefined in JavaScript) is false. -/
def DecimalNumberMatcher.isExceededMaxNumberOfDigits
    (number : Option DecimalValue) (maxNumberOfDigits : Option Int) : Bool :=
  match number, maxNumberOfDigits with
  | some n, some mx => (n.precision : Int) > mx
  | _, _ => false

/-- Source isExceededMaxNumberOfDecimalPlaces (lines 109-111): compares
the decimal-place count with this.params[1]; against an absent number or
an absent parameter the comparison is false. -/
def DecimalNumberMatcher.isExceededMaxNumberOfDecimalPlaces
    (m : DecimalNumberMatcher) (number : Option DecimalValue) : Bool :=
  match number, m.params.get? 1 with
  | some n, some p => (n.decimalPlaces : Int) > p
  | _, _ => false

/-- Source validateMaxNumberOfDigits (lines 93-97). -/
def DecimalNumberMatcher.validateMaxNumberOfDigits
    (number : Option DecimalValue) (maxNumberOfDigits : Option Int)
    (result : ValidationResult) : ValidationResult :=
  if DecimalNumberMatcher.isExceededMaxNumberOfDigits number maxNumberOfDigits then
    result.addInvalidTypeError
      DoubleNumberErrors.EXCEEDED_MAX_NUMBER_OF_DIGITS.CODE
      DoubleNumberErrors.EXCEEDED_MAX_NUMBER_OF_DIGITS.MESSAGE
  else result

/-- Source validateMaxNumberOfDecimalPlaces (lines 99-103). -/
def DecimalNumberMatcher.validateMaxNumberOfDecimalPlaces
    (m : DecimalNumberMatcher) (number : Option DecimalValue)
    (result : ValidationResult) : ValidationResult :=
  if m.isExceededMaxNumberOfDecimalPlaces number then
    result.addInvalidTypeError
      DoubleNumberErrors.EXCEEDED_MAX_NUMBER_OF_DECIMAL_PLACES.CODE
      DoubleNumberErrors.EXCEEDED_MAX_NUMBER_OF_DECIMAL_PLACES.MESSAGE
  else result

/-- Source validateParamsLength (lines 105-107). -/
def DecimalNumberMatcher.validateParamsLength (m : DecimalNumberMatcher)
    (length : Nat) : Bool :=
  m.params.length == length

/-- Source processNoParamInput (lines 60-65). -/
def DecimalNumberMatcher.processNoParamInput (value : String)
    (result : ValidationResult) : ValidationResult :=
  let c := DecimalNumberMatcher.convertToDecimal value result
  DecimalNumberMatcher.validateMaxNumberOfDigits c.1 (some DEFAULT_DIGIT_LIMIT) c.2

/-- Source processOneParamInput (lines 67-72): the bound is this.params[0]. -/
def DecimalNumberMatcher.processOneParamInput (m : DecimalNumberMatcher)
    (value : String) (result : ValidationResult) : ValidationResult :=
  let c := DecimalNumberMatcher.convertToDecimal value result
  DecimalNumberMatcher.validateMaxNumberOfDigits c.1 (m.params.get? 0) c.2

/-- Source processTwoParamsInput (lines 74-80): the total-digit check with
this.params[0], then the decimal-places check. -/
def DecimalNumberMatcher.processTwoParamsInput (m : DecimalNumberMatcher)
    (value : String) (result : ValidationResult) : ValidationResult :=
  let c := DecimalNumberMatcher.convertToDecimal value result
  let r2 := DecimalNumberMatcher.validateMaxNumberOfDigits c.1 (m.params.get? 0) c.2
  m.validateMaxNumberOfDecimalPlaces c.1 r2

/-- Source match (lines 41-58): a fresh result is created; an absent value
falls through every branch, so no outcome is returned (undefined);
otherwise the arity of the configuration selects the variant, and an
arity other than 0, 1 or 2 also falls through with no returned outcome. -/
def DecimalNumberMatcher.«match» (m : DecimalNumberMatcher)
    (value : Option String) : Option ValidationResult :=
  let result : ValidationResult := ⟨[]⟩
  match value with
  | none => none
  | some v =>
    if m.validateParamsLength 0 then
      some (DecimalNumberMatcher.processNoParamInput v result)
    else if m.validateParamsLength 1 then
      some (m.processOneParamInput v result)
    else if m.validateParamsLength 2 then
      some (m.processTwoParamsInput v result)
    else none

/-- Call-level view of match: the body of the source's match contains no
assignment to this (this.params is written only in the constructor), so a
call hands back the matcher object exactly as received, together with the
outcome of that call. -/
def DecimalNumberMatcher.matchCall (m : DecimalNumberMatcher)
    (value : Option String) : Option ValidationResult × DecimalNumberMatcher :=
  (m.«match» value, m)

/-- Applicable maximum total digit count of a configuration: the first
parameter when one is present, the built-in default otherwise. -/
def applicableMaxDigits (params : List Int) : Int :=
  match params with
  | [] => DEFAULT_DIGIT_LIMIT
  | p :: _ => p

/-- Count of the violations of an outcome that carry a given code. -/
def countCode (r : ValidationResult) (code : String) : Nat :=
  r.violations.countP (fun v => v.code == code)

/-- Violation record produced for unparseable input. -/
def notValidRecord : ViolationRecord :=
  ⟨DoubleNumberErrors.NOT_VALID.CODE, DoubleNumberErrors.NOT_VALID.MESSAGE⟩

/-- Violation record produced when the total digit count is exceeded. -/
def digitsRecord : ViolationRecord :=
  ⟨DoubleNumberErrors.EXCEEDED_MAX_NUMBER_OF_DIGITS.CODE,
   DoubleNumberErrors.EXCEEDED_MAX_NUMBER_OF_DIGITS.MESSAGE⟩

/-- Violation record produced when the decimal-place count is exceeded. -/
def placesRecord : ViolationRecord :=
  ⟨DoubleNumberErrors.EXCEEDED_MAX_NUMBER_OF_DECIMAL_PLACES.CODE,
   DoubleNumberErrors.EXCEEDED_MAX_NUMBER_OF_DECIMAL_PLACES.MESSAGE⟩

/-- Dispatch of match at arity zero. -/
theorem match_nil_eq (s : String) :
    (DecimalNumberMatcher.mk []).«match» (some s) =
      some (DecimalNumberMatcher.processNoParamInput s ⟨[]⟩) := rfl

/-- Dispatch of match at arity one. -/
theorem match_one_eq (a : Int) (s : String) :
    (DecimalNumberMatcher.mk [a]).«match» (some s) =
      some ((DecimalNumberMatcher.mk [a]).processOneParamInput s ⟨[]⟩) := rfl

/-- Dispatch of match at arity two. -/
theorem match_two_eq (a b : Int) (s : String) :
    (DecimalNumberMatcher.mk [a, b]).«match» (some s) =
      some ((DecimalNumberMatcher.mk [a, b]).processTwoParamsInput s ⟨[]⟩) := rfl

/-- Dispatch of match at any arity other than 0, 1 and 2: every branch of
the source's match body is skipped and no outcome is produced. -/
theorem match_none_of_arity (params : List Int) (s : String)
    (h0 : params.length ≠ 0) (h1 : params.length ≠ 1)
    (h2 : params.length ≠ 2) :
    (DecimalNumberMatcher.mk params).«match» (some s) = none := by
  simp [DecimalNumberMatcher.«match», DecimalNumberMatcher.validateParamsLength,
    h0, h1, h2]

/-- Outcome of the zero-parameter variant on a parseable value. -/
theorem processNoParamInput_eq (s : String) (n : DecimalValue)
    (h : parseDecimal s = some n) :
    DecimalNumberMatcher.processNoParamInput s ⟨[]⟩ =
      if (n.precision : Int) > DEFAULT_DIGIT_LIMIT then ⟨[digitsRecord]⟩
      else ⟨[]⟩ := by
  by_cases hc : (n.precision : Int) > DEFAULT_DIGIT_LIMIT <;>
    simp [DecimalNumberMatcher.processNoParamInput,
      DecimalNumberMatcher.convertToDecimal, h,
      DecimalNumberMatcher.validateMaxNumberOfDigits,
      DecimalNumberMatcher.isExceededMaxNumberOfDigits,
      ValidationResult.addInvalidTypeError, digitsRecord, hc]

/-- Outcome of the one-parameter variant on a parseable value. -/
theorem processOneParamInput_eq (a : Int) (s : String) (n : DecimalValue)
    (h : parseDecimal s = some n) :
    (DecimalNumberMatcher.mk [a]).processOneParamInput s ⟨[]⟩ =
      if (n.precision : Int) > a then ⟨[digitsRecord]⟩ else ⟨[]⟩ := by
  by_cases hc : (n.precision : Int) > a <;>
    simp [DecimalNumberMatcher.processOneParamInput,
      DecimalNumberMatcher.convertToDecimal, h,
      DecimalNumberMatcher.validateMaxNumberOfDigits,
      DecimalNumberMatcher.isExceededMaxNumberOfDigits,
      ValidationResult.addInvalidTypeError, digitsRecord, hc]

/-- Outcome of the two-parameter variant on a parseable value: the two
checks contribute independent segments, total-digit first. -/
theorem processTwoParamsInput_eq (a b : Int) (s : String) (n : DecimalValue)
    (h : parseDecimal s = some n) :
    (DecimalNumberMatcher.mk [a, b]).processTwoParamsInput s ⟨[]⟩ =
      ⟨(if (n.precision : Int) > a then [digitsRecord] else []) ++
        (if (n.decimalPlaces : Int) > b then [placesRecord] else [])⟩ := by
  by_cases hc : (n.precision : Int) > a <;>
    by_cases hd : (n.decimalPlaces : Int) > b <;>
      simp [DecimalNumberMatcher.processTwoParamsInput,
        DecimalNumberMatcher.convertToDecimal, h,
        DecimalNumberMatcher.validateMaxNumberOfDigits,
        DecimalNumberMatcher.isExceededMaxNumberOfDigits,
        DecimalNumberMatcher.validateMaxNumberOfDecimalPlaces,
        DecimalNumberMatcher.isExceededMaxNumberOfDecimalPlaces,
        ValidationResult.addInvalidTypeError, digitsRecord, placesRecord,
        hc, hd]

/-- Outcome of the zero-parameter variant on an unparseable value. -/
theorem processNoParamInput_fail (s : String) (h : parseDecimal s = none) :
    DecimalNumberMatcher.processNoParamInput s ⟨[]⟩ = ⟨[notValidRecord]⟩ := by
  simp [DecimalNumberMatcher.processNoParamInput,
    DecimalNumberMatcher.convertToDecimal, h,
    DecimalNumberMatcher.validateMaxNumberOfDigits,
    DecimalNumberMatcher.isExceededMaxNumberOfDigits,
    ValidationResult.addInvalidTypeError, notValidRecord]

/-- Outcome of the one-parameter variant on an unparseable value. -/
theorem processOneParamInput_fail (a : Int) (s : String)
    (h : parseDecimal s = none) :
    (DecimalNumberMatcher.mk [a]).processOneParamInput s ⟨[]⟩ =
      ⟨[notValidRecord]⟩ := by
  simp [DecimalNumberMatcher.processOneParamInput,
    DecimalNumberMatcher.convertToDecimal, h,
    DecimalNumberMatcher.validateMaxNumberOfDigits,
    DecimalNumberMatcher.isExceededMaxNumberOfDigits,
    ValidationResult.addInvalidTypeError, notValidRecord]

/-- Outcome of the two-parameter variant on an unparseable value: the
absent number silences both digit-count checks. -/
theorem processTwoParamsInput_fail (a b : Int) (s : String)
    (h : parseDecimal s = none) :
    (DecimalNumberMatcher.mk [a, b]).processTwoParamsInput s ⟨[]⟩ =
      ⟨[notValidRecord]⟩ := by
  simp [DecimalNumberMatcher.processTwoParamsInput,
    DecimalNumberMatcher.convertToDecimal, h,
    DecimalNumberMatcher.validateMaxNumberOfDigits,
    DecimalNumberMatcher.isExceededMaxNumberOfDigits,
    DecimalNumberMatcher.validateMaxNumberOfDecimalPlaces,
    DecimalNumberMatcher.isExceededMaxNumberOfDecimalPlaces,
    ValidationResult.addInvalidTypeError, notValidRecord]

/-- C4 counterexample: at the concrete configuration with no parameters and
the absent value, match produces no outcome at all, so it does not return
an outcome containing zero violations. -/
theorem match_absent_no_outcome_cex :
    ¬ ∃ r : ValidationResult, (DecimalNumberMatcher.mk []).«match» none = some r := by
  rintro ⟨r, h⟩
  simp [DecimalNumberMatcher.«match»] at h

/-- C4 (amended): for every absent input value and every configuration,
match returns no outcome (JavaScript undefined); in particular it reports
no violations for absent input. -/
theorem match_absent_returns_none (params : List Int) :
    (DecimalNumberMatcher.mk params).«match» none = none := rfl

/-- C6: for every input value, match under the zero-parameter configuration
returns the same outcome as match under the one-parameter configuration
whose single parameter is 11, the built-in default. -/
theorem zero_param_equiv_default (value : Option String) :
    (DecimalNumberMatcher.mk []).«match» value =
      (DecimalNumberMatcher.mk [11]).«match» value := by
  cases value <;> rfl

/-- C7: for every non-null input value, a configuration arity other than
0, 1 or 2 matches no variant: match produces no outcome and hence appends
no violations. -/
theorem match_invalid_arity (params : List Int) (s : String)
    (h0 : params.length ≠ 0) (h1 : params.length ≠ 1)
    (h2 : params.length ≠ 2) :
    (DecimalNumberMatcher.mk params).«match» (some s) = none :=
  match_none_of_arity params s h0 h1 h2

/-- C7 witness at the three-parameter configuration (1, 2, 3) and the
value "1". -/
theorem match_invalid_arity_witness :
    (DecimalNumberMatcher.mk [1, 2, 3]).«match» (some "1") = none :=
  match_invalid_arity [1, 2, 3] "1" (by decide) (by decide) (by decide)

/-- C8: match is deterministic across repeated calls: a second call on the
matcher object handed back by a first call, with the same value, yields a
structurally identical outcome. -/
theorem match_deterministic (m : DecimalNumberMatcher) (value : Option String) :
    ((m.matchCall value).2.matchCall value).1 = (m.matchCall value).1 := rfl

/-- C9: every call to match hands the matcher back with its
construction-time configuration unchanged; within the pure embedding the
only product of the call is the returned outcome. -/
theorem match_preserves_params (m : DecimalNumberMatcher) (value : Option String) :
    (m.matchCall value).2.params = m.params := rfl

/-- C1: for every parseable input value and every configuration of arity
0, 1 or 2, match appends the EXCEEDED_MAX_NUMBER_OF_DIGITS violation
exactly once when the parsed number's total significant-digit count
exceeds the applicable maximum — the first parameter, or the default 11
at arity zero — and not at all otherwise; the count is the canonical
significant-digit precision of the value, so sign and leading or trailing
zero padding of the text do not contribute. -/
theorem exceeded_digits_iff (params : List Int) (s : String) (n : DecimalValue)
    (hpar : parseDecimal s = some n) (hlen : params.length ≤ 2) :
    ∃ r, (DecimalNumberMatcher.mk params).«match» (some s) = some r ∧
      countCode r DoubleNumberErrors.EXCEEDED_MAX_NUMBER_OF_DIGITS.CODE =
        if (n.precision : Int) > applicableMaxDigits params then 1 else 0 := by
  rcases params with _ | ⟨a, _ | ⟨b, _ | ⟨c, t⟩⟩⟩
  · refine ⟨_, match_nil_eq s, ?_⟩
    rw [processNoParamInput_eq s n hpar]
    simp only [applicableMaxDigits]
    split_ifs <;> decide
  · refine ⟨_, match_one_eq a s, ?_⟩
    rw [processOneParamInput_eq a s n hpar]
    simp only [applicableMaxDigits]
    split_ifs <;> decide
  · refine ⟨_, match_two_eq a b s, ?_⟩
    rw [processTwoParamsInput_eq a b s n hpar]
    simp only [applicableMaxDigits]
    split_ifs <;> decide
  · exact absurd hlen (by simp [List.length_cons])

/-- C1 witness at the one-parameter configuration (4) and the value
"12345", which parses with five significant digits. -/
theorem exceeded_digits_iff_witness :
    ∃ r, (DecimalNumberMatcher.mk [4]).«match» (some "12345") = some r ∧
      countCode r DoubleNumberErrors.EXCEEDED_MAX_NUMBER_OF_DIGITS.CODE =
        if (((DecimalValue.mk false 12345 0).precision : Int) >
            applicableMaxDigits [4]) then 1 else 0 :=
  exceeded_digits_iff [4] "12345" ⟨false, 12345, 0⟩ (by decide) (by decide)

/-- C2: for every parseable input value and every configuration of arity
0, 1 or 2, match appends the EXCEEDED_MAX_NUMBER_OF_DECIMAL_PLACES
violation exactly once when the configuration has two parameters and the
parsed number's fractional digit count exceeds the second parameter, and
never otherwise — in particular never at arity zero or one. -/
theorem decimal_places_iff (params : List Int) (s : String) (n : DecimalValue)
    (hpar : parseDecimal s = some n) (hlen : params.length ≤ 2) :
    ∃ r, (DecimalNumberMatcher.mk params).«match» (some s) = some r ∧
      countCode r DoubleNumberErrors.EXCEEDED_MAX_NUMBER_OF_DECIMAL_PLACES.CODE =
        if params.length = 2 ∧ (n.decimalPlaces : Int) > params.getD 1 0
        then 1 else 0 := by
  rcases params with _ | ⟨a, _ | ⟨b, _ | ⟨c, t⟩⟩⟩
  · refine ⟨_, match_nil_eq s, ?_⟩
    rw [processNoParamInput_eq s n hpar]
    split_ifs <;> first | decide | simp_all
  · refine ⟨_, match_one_eq a s, ?_⟩
    rw [processOneParamInput_eq a s n hpar]
    split_ifs <;> first | decide | simp_all
  · refine ⟨_, match_two_eq a b s, ?_⟩
    rw [processTwoParamsInput_eq a b s n hpar]
    simp only [List.getD_cons_succ, List.getD_cons_zero, List.length_cons,
      List.length_nil]
    split_ifs <;> first | decide | simp_all
  · exact absurd hlen (by simp [List.length_cons])

/-- C2 witness at the two-parameter configuration (6, 2) and the value
"1.234", which parses with three fractional digits. -/
theorem decimal_places_iff_witness :
    ∃ r, (DecimalNumberMatcher.mk [6, 2]).«match» (some "1.234") = some r ∧
      countCode r DoubleNumberErrors.EXCEEDED_MAX_NUMBER_OF_DECIMAL_PLACES.CODE =
        if ([(6 : Int), 2].length = 2 ∧
            ((DecimalValue.mk false 1234 3).decimalPlaces : Int) >
              [(6 : Int), 2].getD 1 0) then 1 else 0 :=
  decimal_places_iff [6, 2] "1.234" ⟨false, 1234, 3⟩ (by decide) (by decide)

/-- C3: for every non-null input text that does not parse and every
configuration of arity 0, 1 or 2, match yields exactly one violation,
NOT_VALID, and no digit-count violation: the absent number silences every
digit-count query. -/
theorem not_valid_single (params : List Int) (s : String)
    (hpar : parseDecimal s = none) (hlen : params.length ≤ 2) :
    ∃ r, (DecimalNumberMatcher.mk params).«match» (some s) = some r ∧
      r.violations =
        [⟨DoubleNumberErrors.NOT_VALID.CODE, DoubleNumberErrors.NOT_VALID.MESSAGE⟩] := by
  rcases params with _ | ⟨a, _ | ⟨b, _ | ⟨c, t⟩⟩⟩
  · exact ⟨_, match_nil_eq s, by rw [processNoParamInput_fail s hpar]; rfl⟩
  · exact ⟨_, match_one_eq a s, by rw [processOneParamInput_fail a s hpar]; rfl⟩
  · exact ⟨_, match_two_eq a b s, by rw [processTwoParamsInput_fail a b s hpar]; rfl⟩
  · exact absurd hlen (by simp [List.length_cons])

/-- C3 witness at the two-parameter configuration (4, 2) and the
unparseable value "abc". -/
theorem not_valid_single_witness :
    ∃ r, (DecimalNumberMatcher.mk [4, 2]).«match» (some "abc") = some r ∧
      r.violations =
        [⟨DoubleNumberErrors.NOT_VALID.CODE, DoubleNumberErrors.NOT_VALID.MESSAGE⟩] :=
  not_valid_single [4, 2] "abc" (by decide) (by decide)

/-- C5: in the two-parameter variant both checks are evaluated on every
parseable input, and each exceeded bound contributes its own violation
exactly once, independently of the other. -/
theorem two_params_independent (a b : Int) (s : String) (n : DecimalValue)
    (hpar : parseDecimal s = some n) :
    ∃ r, (DecimalNumberMatcher.mk [a, b]).«match» (some s) = some r ∧
      countCode r DoubleNumberErrors.EXCEEDED_MAX_NUMBER_OF_DIGITS.CODE =
        (if (n.precision : Int) > a then 1 else 0) ∧
      countCode r DoubleNumberErrors.EXCEEDED_MAX_NUMBER_OF_DECIMAL_PLACES.CODE =
        (if (n.decimalPlaces : Int) > b then 1 else 0) := by
  refine ⟨_, match_two_eq a b s, ?_, ?_⟩ <;>
    rw [processTwoParamsInput_eq a b s n hpar] <;>
      split_ifs <;> decide

/-- C5 witness: at the configuration (3, 1) and the value "12.34" both
bounds are exceeded and both violations appear exactly once. -/
theorem two_params_independent_witness :
    ∃ r, (DecimalNumberMatcher.mk [3, 1]).«match» (some "12.34") = some r ∧
      countCode r DoubleNumberErrors.EXCEEDED_MAX_NUMBER_OF_DIGITS.CODE = 1 ∧
      countCode r DoubleNumberErrors.EXCEEDED_MAX_NUMBER_OF_DECIMAL_PLACES.CODE = 1 := by
  obtain ⟨r, h1, h2, h3⟩ :=
    two_params_independent 3 1 "12.34" ⟨false, 1234, 2⟩ (by decide)
  refine ⟨r, h1, ?_, ?_⟩
  · rw [h2]; decide
  · rw [h3]; decide

/-- C10: within one match call the violations appear in a fixed order:
whenever an outcome is produced, the sequence of its codes is a sublist of
NOT_VALID, then EXCEEDED_MAX_NUMBER_OF_DIGITS, then
EXCEEDED_MAX_NUMBER_OF_DECIMAL_PLACES; in particular each code appears at
most once and the total-digit violation always precedes the decimal-places
violation. -/
theorem violations_ordered (params : List Int) (value : Option String)
    (r : ValidationResult)
    (h : (DecimalNumberMatcher.mk params).«match» value = some r) :
    List.Sublist (r.violations.map ViolationRecord.code)
      [DoubleNumberErrors.NOT_VALID.CODE,
       DoubleNumberErrors.EXCEEDED_MAX_NUMBER_OF_DIGITS.CODE,
       DoubleNumberErrors.EXCEEDED_MAX_NUMBER_OF_DECIMAL_PLACES.CODE] := by
  rcases value with _ | s
  · exact absurd h (by simp [DecimalNumberMatcher.«match»])
  rcases params with _ | ⟨a, _ | ⟨b, _ | ⟨c, t⟩⟩⟩
  · rw [match_nil_eq s] at h
    obtain rfl : _ = r := Option.some_injective _ h
    rcases hp : parseDecimal s with _ | n
    · rw [processNoParamInput_fail s hp]; decide
    · rw [processNoParamInput_eq s n hp]
      split_ifs <;> decide
  · rw [match_one_eq a s] at h
    obtain rfl : _ = r := Option.some_injective _ h
    rcases hp : parseDecimal s with _ | n
    · rw [processOneParamInput_fail a s hp]; decide
    · rw [processOneParamInput_eq a s n hp]
      split_ifs <;> decide
  · rw [match_two_eq a b s] at h
    obtain rfl : _ = r := Option.some_injective _ h
    rcases hp : parseDecimal s with _ | n
    · rw [processTwoParamsInput_fail a b s hp]; decide
    · rw [processTwoParamsInput_eq a b s n hp]
      split_ifs <;> decide
  · exact absurd h (by
      rw [match_none_of_arity (a :: b :: c :: t) s (by simp) (by simp)
        (by simp [List.length_cons])]
      simp)

/-- C10 witness: at the configuration (2, 0) and the value "12.34" the
produced code sequence is the two digit-count codes in order. -/
theorem violations_ordered_witness :
    List.Sublist
      ((ValidationResult.mk [digitsRecord, placesRecord]).violations.map
        ViolationRecord.code)
      [DoubleNumberErrors.NOT_VALID.CODE,
       DoubleNumberErrors.EXCEEDED_MAX_NUMBER_OF_DIGITS.CODE,
       DoubleNumberErrors.EXCEEDED_MAX_NUMBER_OF_DECIMAL_PLACES.CODE] :=
  violations_ordered [2, 0] (some "12.34") ⟨[digitsRecord, placesRecord]⟩
    (by decide)
